import Mathlib

/-!
# Connection projection and query delegation (pkg/registry/apis/datasource/querier.go)

A shallow embedding of `DefaultQuerier` and of the two projection functions
`asConnection` / `asConnectionList`.

* Go pointers and interface values are `Option`s (`none` is `nil`).
* Go slices are `Option (List _)`: `none` is the nil slice, `some []` the empty, non-nil one.
* A Go `(value, error)` result is a pair whose second component is `Option GoError`.
* A run of a function is its outcome (a normal return, or a run-time panic such as a
  nil dereference) together with the ordered list of calls it made to code outside the file.
* The functions the file imports from other packages are fields of `Env` (package level
  functions) or of the collaborator handles stored in `DefaultQuerier`.
-/

namespace Datasource

/-! ## Values from the Go standard library -/

/-- A non-nil Go `error` value. -/
structure GoError where
  msg : String
deriving DecidableEq, Repr

/-- A `time.Time`, represented by what its `unixSec()` (an int64) and `nsec()`
(an int32 in `[0, 999999999]`) return. -/
structure Time where
  unixSec : Int
  nsec : Nat
deriving DecidableEq, Repr

/-- Two's complement wrap-around of a mathematical integer into the int64 range. -/
def wrapInt64 (x : Int) : Int :=
  (x + 9223372036854775808) % 18446744073709551616 - 9223372036854775808

/-- The values `time.Time` can hold. -/
def Time.WellFormed (t : Time) : Prop :=
  -9223372036854775808 ≤ t.unixSec ∧ t.unixSec < 9223372036854775808 ∧ t.nsec < 1000000000

instance (t : Time) : Decidable t.WellFormed := by
  unfold Time.WellFormed; exact inferInstance

/-- Go: `func (t Time) UnixMilli() int64 { return t.unixSec()*1e3 + int64(t.nsec())/1e6 }`,
in int64 arithmetic. -/
def Time.UnixMilli (t : Time) : Int :=
  wrapInt64 (wrapInt64 (t.unixSec * 1000) + (t.nsec : Int) / 1000000)

/-- The instant `t` as a whole number of milliseconds elapsed since the Unix epoch
(rounded down), as a mathematical integer. -/
def Time.epochMillis (t : Time) : Int :=
  (t.unixSec * 1000000000 + (t.nsec : Int)) / 1000000

/-- Go: `fmt.Sprintf("%d", i)` for an int64: base 10, a leading minus sign when negative. -/
def sprintfD (i : Int) : String :=
  if i < 0 then "-" ++ Nat.repr i.natAbs else Nat.repr i.natAbs

/-- A `context.Context`. -/
structure Context where
  id : Nat
deriving DecidableEq, Repr

/-! ## Values from the plugin SDK and from other packages of the repository -/

structure QueryDataRequest where
  body : String
deriving DecidableEq, Repr

structure QueryDataResponse where
  body : String
deriving DecidableEq, Repr

structure CheckHealthRequest where
  body : String
deriving DecidableEq, Repr

structure CheckHealthResult where
  body : String
deriving DecidableEq, Repr

structure CallResourceRequest where
  body : String
deriving DecidableEq, Repr

/-- A `backend.CallResourceResponseSender` (the streaming sink). -/
structure CallResourceResponseSender where
  id : Nat
deriving DecidableEq, Repr

/-- The acting user `appcontext.User` resolves. -/
structure SignedInUser where
  login : String
deriving DecidableEq, Repr

/-- The result of `request.NamespaceInfoFrom`. -/
structure NamespaceInfo where
  OrgID : Int
  Value : String
deriving DecidableEq, Repr

/-- The `metav1.TypeMeta` type descriptor. -/
structure TypeMeta where
  Kind : String
  APIVersion : String
deriving DecidableEq, Repr

/-- A `metav1.Time`: a wrapper around `time.Time`. -/
structure MetaV1Time where
  Time : Time
deriving DecidableEq, Repr

/-- Go: `metav1.NewTime(t)`. -/
def NewTime (t : Time) : MetaV1Time := ⟨t⟩

/-- The fields of `metav1.ObjectMeta` the file touches. `UpdatedTimestamp` stands for the
"updated timestamp" annotation (absent on a freshly built object). -/
structure ObjectMeta where
  Name : String
  Namespace : String
  UID : String
  ResourceVersion : String
  CreationTimestamp : MetaV1Time
  UpdatedTimestamp : Option Time
deriving DecidableEq, Repr

/-- The record `datasources.DataSource`. -/
structure DataSource where
  UID : String
  Name : String
  Type_ : String
  OrgID : Int
  Created : Time
  Updated : Time
deriving DecidableEq, Repr

/-- The resource `v0alpha1.DataSourceConnection`: embeds `TypeMeta` and `ObjectMeta`. -/
structure DataSourceConnection extends TypeMeta, ObjectMeta where
  Title : String
deriving DecidableEq, Repr

/-- The resource `v0alpha1.DataSourceConnectionList`; `Items` is a Go slice. -/
structure DataSourceConnectionList where
  Items : Option (List DataSourceConnection)
deriving DecidableEq, Repr

/-- The query `datasources.GetDataSourcesByTypeQuery`. -/
structure GetDataSourcesByTypeQuery where
  OrgID : Int
  Type_ : String
deriving DecidableEq, Repr

/-- The plugin descriptor `plugins.JSONData`; only `ID` is read. -/
structure JSONData where
  ID : String
deriving DecidableEq, Repr

/-- The resource-kind descriptor `common.ResourceInfo`, by what its `TypeMeta()` returns. -/
structure ResourceInfo where
  typeMeta : TypeMeta
deriving DecidableEq, Repr

/-- Go: `ri.TypeMeta()`. -/
def ResourceInfo.TypeMeta (ri : ResourceInfo) : TypeMeta := ri.typeMeta

/-- Modelled from the spec: the metadata accessor `utils.MetaAccessor` builds (its type and
its methods are not in src). A non-nil accessor is a handle on the object it was built for;
its only capability used here is setting that object's "updated timestamp" annotation. -/
structure GrafanaResourceMetaAccessor where
  handle : Unit
deriving DecidableEq, Repr

/-- Modelled from the spec: `meta.SetUpdatedTimestamp(&t)`, not in src, sets the
"updated timestamp" annotation of the object the accessor was built for. -/
def GrafanaResourceMetaAccessor.SetUpdatedTimestamp (_m : GrafanaResourceMetaAccessor)
    (t : Time) (obj : DataSourceConnection) : DataSourceConnection :=
  { obj with UpdatedTimestamp := some t }

/-! ## Collaborators -/

/-- The interface `plugins.Client`. -/
structure Client where
  QueryData : Context → Option QueryDataRequest → Option QueryDataResponse × Option GoError
  CheckHealth : Context → Option CheckHealthRequest → Option CheckHealthResult × Option GoError
  CallResource : Context → Option CallResourceRequest → CallResourceResponseSender →
    Option GoError

/-- The interface `datasources.DataSourceService` (by-type lookup). -/
structure DataSourceService where
  GetDataSourcesByType : Context → GetDataSourcesByTypeQuery →
    Option (List (Option DataSource)) × Option GoError

/-- The interface `datasources.CacheService` (by-UID lookup); the last argument is
`skipCache`. -/
structure CacheService where
  GetDatasourceByUID : Context → String → Option SignedInUser → Bool →
    Option DataSource × Option GoError

/-- The package-level functions the file calls. `MetaAccessor` returns a Go pair
`(accessor, error)`; either component may be nil. -/
structure Env where
  NamespaceInfoFrom : Context → Bool → NamespaceInfo × Option GoError
  User : Context → Option SignedInUser × Option GoError
  CalculateClusterWideUID : DataSourceConnection → String
  MetaAccessor : DataSourceConnection → Option GrafanaResourceMetaAccessor × Option GoError

/-- One call made to code outside the file, with its arguments. -/
inductive Call where
  | NamespaceInfoFrom (ctx : Context) (required : Bool)
  | User (ctx : Context)
  | QueryData (ctx : Context) (req : Option QueryDataRequest)
  | CheckHealth (ctx : Context) (req : Option CheckHealthRequest)
  | CallResource (ctx : Context) (req : Option CallResourceRequest)
      (sender : CallResourceResponseSender)
  | GetDatasourceByUID (ctx : Context) (uid : String) (user : Option SignedInUser)
      (skipCache : Bool)
  | GetDataSourcesByType (ctx : Context) (query : GetDataSourcesByTypeQuery)
  | CalculateClusterWideUID (obj : DataSourceConnection)
  | MetaAccessor (obj : DataSourceConnection)
  | SetUpdatedTimestamp (receiver : GrafanaResourceMetaAccessor) (t : Time)
deriving DecidableEq, Repr

/-- How a call ends: a normal return, or a run-time panic (nil dereference). -/
inductive Outcome (α : Type) where
  | ret (a : α)
  | panic
deriving DecidableEq, Repr

/-- A run: how it ended and the calls made, in order. -/
structure Run (α : Type) where
  out : Outcome α
  calls : List Call
deriving DecidableEq, Repr

/-- Calls to the plugin client, the acting-user resolver and the two lookups. -/
def Call.isDownstream : Call → Bool
  | .User _ => true
  | .QueryData _ _ => true
  | .CheckHealth _ _ => true
  | .CallResource _ _ _ => true
  | .GetDatasourceByUID _ _ _ _ => true
  | .GetDataSourcesByType _ _ => true
  | _ => false

/-- Calls to the by-UID lookup. -/
def Call.isByUID : Call → Bool
  | .GetDatasourceByUID _ _ _ _ => true
  | _ => false

/-- Calls to the plugin client. -/
def Call.isPluginClient : Call → Bool
  | .QueryData _ _ => true
  | .CheckHealth _ _ => true
  | .CallResource _ _ _ => true
  | _ => false

/-- Go: `type DefaultQuerier struct`. -/
structure DefaultQuerier where
  connectionResourceInfo : ResourceInfo
  pluginJSON : JSONData
  pluginClient : Client
  dsService : DataSourceService
  dsCache : CacheService

/-- Go: `NewDefaultQuerier`. -/
def NewDefaultQuerier (connectionResourceInfo : ResourceInfo) (pluginJSON : JSONData)
    (pluginClient : Client) (dsService : DataSourceService) (dsCache : CacheService) :
    DefaultQuerier :=
  { connectionResourceInfo := connectionResourceInfo
    pluginJSON := pluginJSON
    pluginClient := pluginClient
    dsService := dsService
    dsCache := dsCache }

/-- Go: `(q *DefaultQuerier) Query`. -/
def DefaultQuerier.Query (env : Env) (q : DefaultQuerier) (ctx : Context)
    (query : Option QueryDataRequest) : Run (Option QueryDataResponse × Option GoError) :=
  match env.NamespaceInfoFrom ctx true with
  | (_, some err) => ⟨.ret (none, some err), [.NamespaceInfoFrom ctx true]⟩
  | (_, none) =>
    ⟨.ret (q.pluginClient.QueryData ctx query),
      [.NamespaceInfoFrom ctx true, .QueryData ctx query]⟩

/-- Go: `(q *DefaultQuerier) Resource`. -/
def DefaultQuerier.Resource (env : Env) (q : DefaultQuerier) (ctx : Context)
    (req : Option CallResourceRequest) (sender : CallResourceResponseSender) :
    Run (Option GoError) :=
  match env.NamespaceInfoFrom ctx true with
  | (_, some err) => ⟨.ret (some err), [.NamespaceInfoFrom ctx true]⟩
  | (_, none) =>
    ⟨.ret (q.pluginClient.CallResource ctx req sender),
      [.NamespaceInfoFrom ctx true, .CallResource ctx req sender]⟩

/-- Go: `(q *DefaultQuerier) Health`. -/
def DefaultQuerier.Health (env : Env) (q : DefaultQuerier) (ctx : Context)
    (query : Option CheckHealthRequest) : Run (Option CheckHealthResult × Option GoError) :=
  match env.NamespaceInfoFrom ctx true with
  | (_, some err) => ⟨.ret (none, some err), [.NamespaceInfoFrom ctx true]⟩
  | (_, none) =>
    ⟨.ret (q.pluginClient.CheckHealth ctx query),
      [.NamespaceInfoFrom ctx true, .CheckHealth ctx query]⟩

/-! ## The projection -/

/-- The composite literal `&v0alpha1.DataSourceConnection` of `asConnection`
(querier.go lines 141-150); fields it does not name are zero. -/
def newDataSourceConnection (typeMeta : TypeMeta) (ds : DataSource) (ns : String) :
    DataSourceConnection :=
  { toTypeMeta := typeMeta
    Name := ds.UID
    Namespace := ns
    CreationTimestamp := NewTime ds.Created
    ResourceVersion := sprintfD ds.Updated.UnixMilli
    UID := ""
    UpdatedTimestamp := none
    Title := ds.Name }

/-- The object after `v.UID = utils.CalculateClusterWideUID(v)` (querier.go line 151). -/
def assembledConnection (env : Env) (typeMeta : TypeMeta) (ds : DataSource) (ns : String) :
    DataSourceConnection :=
  { newDataSourceConnection typeMeta ds ns with
    UID := env.CalculateClusterWideUID (newDataSourceConnection typeMeta ds ns) }

/-- Go: `asConnection`. A nil `ds` panics at `ds.UID`. A nil `meta` panics at
`meta.SetUpdatedTimestamp(..)`: a method call on a nil interface value dispatches nothing,
so that run made the two earlier calls only. -/
def asConnection (env : Env) (typeMeta : TypeMeta) (ds : Option DataSource) (ns : String) :
    Run (Option DataSourceConnection × Option GoError) :=
  match ds with
  | none => ⟨.panic, []⟩
  | some d =>
    let v0 := newDataSourceConnection typeMeta d ns
    let v := assembledConnection env typeMeta d ns
    match env.MetaAccessor v with
    | (_, none) =>
      ⟨.ret (some v, none), [.CalculateClusterWideUID v0, .MetaAccessor v]⟩
    | (none, some _) =>
      ⟨.panic, [.CalculateClusterWideUID v0, .MetaAccessor v]⟩
    | (some m, some err) =>
      ⟨.ret (some (m.SetUpdatedTimestamp d.Updated v), some err),
        [.CalculateClusterWideUID v0, .MetaAccessor v, .SetUpdatedTimestamp m d.Updated]⟩

/-- The `for _, ds := range dss` loop of `asConnectionList`: `items` is `result.Items`
so far, `calls` the calls made so far. -/
def asConnectionListLoop (env : Env) (typeMeta : TypeMeta) (ns : String) :
    List (Option DataSource) → List DataSourceConnection → List Call →
    Run (Option DataSourceConnectionList × Option GoError)
  | [], items, calls => ⟨.ret (some ⟨some items⟩, none), calls⟩
  | ds :: rest, items, calls =>
    match asConnection env typeMeta ds ns with
    | ⟨.ret (some v, _), cs⟩ =>
      asConnectionListLoop env typeMeta ns rest (items ++ [v]) (calls ++ cs)
    | ⟨.ret (none, _), cs⟩ => ⟨.panic, calls ++ cs⟩
    | ⟨.panic, cs⟩ => ⟨.panic, calls ++ cs⟩

/-- Go: `asConnectionList`. Ranging over a nil slice runs the body zero times. -/
def asConnectionList (env : Env) (typeMeta : TypeMeta) (dss : Option (List (Option DataSource)))
    (ns : String) : Run (Option DataSourceConnectionList × Option GoError) :=
  asConnectionListLoop env typeMeta ns (dss.getD []) [] []

/-- Go: `(q *DefaultQuerier) Datasource`. -/
def DefaultQuerier.Datasource (env : Env) (q : DefaultQuerier) (ctx : Context)
    (name : String) : Run (Option DataSourceConnection × Option GoError) :=
  match env.NamespaceInfoFrom ctx true with
  | (_, some err) => ⟨.ret (none, some err), [.NamespaceInfoFrom ctx true]⟩
  | (info, none) =>
    match env.User ctx with
    | (_, some err) => ⟨.ret (none, some err), [.NamespaceInfoFrom ctx true, .User ctx]⟩
    | (user, none) =>
      match q.dsCache.GetDatasourceByUID ctx name user false with
      | (_, some err) =>
        ⟨.ret (none, some err),
          [.NamespaceInfoFrom ctx true, .User ctx, .GetDatasourceByUID ctx name user false]⟩
      | (ds, none) =>
        let r := asConnection env q.connectionResourceInfo.TypeMeta ds info.Value
        ⟨r.out,
          [.NamespaceInfoFrom ctx true, .User ctx, .GetDatasourceByUID ctx name user false]
            ++ r.calls⟩

/-- Go: `(q *DefaultQuerier) Datasources`. -/
def DefaultQuerier.Datasources (env : Env) (q : DefaultQuerier) (ctx : Context) :
    Run (Option DataSourceConnectionList × Option GoError) :=
  match env.NamespaceInfoFrom ctx true with
  | (_, some err) => ⟨.ret (none, some err), [.NamespaceInfoFrom ctx true]⟩
  | (info, none) =>
    match q.dsService.GetDataSourcesByType ctx ⟨info.OrgID, q.pluginJSON.ID⟩ with
    | (_, some err) =>
      ⟨.ret (none, some err),
        [.NamespaceInfoFrom ctx true, .GetDataSourcesByType ctx ⟨info.OrgID, q.pluginJSON.ID⟩]⟩
    | (ds, none) =>
      let r := asConnectionList env q.connectionResourceInfo.TypeMeta ds info.Value
      ⟨r.out,
        [.NamespaceInfoFrom ctx true, .GetDataSourcesByType ctx ⟨info.OrgID, q.pluginJSON.ID⟩]
          ++ r.calls⟩

/-! ## Concrete inputs -/

/-- A toy cluster-wide UID: a function of kind, namespace and name only. -/
def exampleUID (obj : DataSourceConnection) : String :=
  obj.Kind ++ "|" ++ obj.Namespace ++ "|" ++ obj.Name

/-- Every resolver succeeds: org 7, namespace "org-7", user "admin". -/
def exampleEnv : Env :=
  { NamespaceInfoFrom := fun _ _ => (⟨7, "org-7"⟩, none)
    User := fun _ => (some ⟨"admin"⟩, none)
    CalculateClusterWideUID := exampleUID
    MetaAccessor := fun _ => (some ⟨()⟩, none) }

/-- The namespace resolver fails. -/
def noNamespaceEnv : Env :=
  { exampleEnv with NamespaceInfoFrom := fun _ _ => (⟨0, ""⟩, some ⟨"missing namespace"⟩) }

/-- The accessor lookup fails the way Go functions do: a nil accessor and an error. -/
def nilAccessorEnv : Env :=
  { exampleEnv with
    MetaAccessor := fun _ => (none, some ⟨"object does not implement the Object interfaces"⟩) }

/-- The accessor lookup reports an error for the object named "bad" and still hands out an
accessor. -/
def lenientAccessorEnv : Env :=
  { exampleEnv with
    MetaAccessor := fun obj =>
      if obj.Name = "bad" then (some ⟨()⟩, some ⟨"accessor failed"⟩) else (some ⟨()⟩, none) }

/-- The accessor lookup fails for the object named "bad" the way Go functions do, with a nil
accessor and an error, and succeeds for every other object. -/
def nilForBadEnv : Env :=
  { exampleEnv with
    MetaAccessor := fun obj =>
      if obj.Name = "bad" then (none, some ⟨"accessor failed"⟩) else (some ⟨()⟩, none) }

def exampleTypeMeta : TypeMeta :=
  ⟨"DataSourceConnection", "prometheus.datasource.grafana.app/v0alpha1"⟩

def exampleCreated : Time := ⟨1600000000, 0⟩

def exampleUpdated : Time := ⟨1700000000, 123456789⟩

/-- The record of the end-to-end scenario: UID "abc", name "My DB", org 7. -/
def exampleRecord : DataSource :=
  { UID := "abc", Name := "My DB", Type_ := "prometheus", OrgID := 7,
    Created := exampleCreated, Updated := exampleUpdated }

/-- A record the accessor of `lenientAccessorEnv` reports an error for. -/
def badRecord : DataSource :=
  { UID := "bad", Name := "Broken", Type_ := "prometheus", OrgID := 7,
    Created := exampleCreated, Updated := exampleUpdated }

/-- A record last updated half a millisecond before the epoch. -/
def beforeEpochRecord : DataSource :=
  { exampleRecord with Updated := ⟨-1, 999500000⟩ }

/-- A record last updated 9223372036854776 seconds after the epoch
(`time.Unix(9223372036854776, 0)`). -/
def farFutureRecord : DataSource :=
  { exampleRecord with Updated := ⟨9223372036854776, 0⟩ }

def exampleContext : Context := ⟨1⟩

def exampleClient : Client :=
  { QueryData := fun _ _ => (some ⟨"frames"⟩, none)
    CheckHealth := fun _ _ => (none, some ⟨"plugin unavailable"⟩)
    CallResource := fun _ _ _ => none }

/-- A querier for plugin "prometheus": the by-UID lookup finds `exampleRecord` under "abc"
only; the by-type lookup has no record of type "prometheus" in org 7 and refuses any other
query. -/
def exampleQuerier : DefaultQuerier :=
  NewDefaultQuerier ⟨exampleTypeMeta⟩ ⟨"prometheus"⟩ exampleClient
    ⟨fun _ query =>
      if query = ⟨7, "prometheus"⟩ then (some [], none) else (none, some ⟨"unexpected query"⟩)⟩
    ⟨fun _ uid _ _ =>
      if uid = "abc" then (some exampleRecord, none) else (none, some ⟨"data source not found"⟩)⟩

/-! ## How `asConnection` ends -/

/-- The accessor lookup succeeded: the assembled object is returned with a nil error. -/
theorem asConnection_of_lookup_ok (env : Env) (typeMeta : TypeMeta) (ds : DataSource)
    (ns : String) (m : Option GrafanaResourceMetaAccessor)
    (h : env.MetaAccessor (assembledConnection env typeMeta ds ns) = (m, none)) :
    asConnection env typeMeta (some ds) ns =
      ⟨.ret (some (assembledConnection env typeMeta ds ns), none),
        [.CalculateClusterWideUID (newDataSourceConnection typeMeta ds ns),
          .MetaAccessor (assembledConnection env typeMeta ds ns)]⟩ := by
  simp [asConnection, h]

/-- The accessor lookup failed and handed out an accessor: the method runs on it. -/
theorem asConnection_of_lookup_err (env : Env) (typeMeta : TypeMeta) (ds : DataSource)
    (ns : String) (m : GrafanaResourceMetaAccessor) (e : GoError)
    (h : env.MetaAccessor (assembledConnection env typeMeta ds ns) = (some m, some e)) :
    asConnection env typeMeta (some ds) ns =
      ⟨.ret (some (m.SetUpdatedTimestamp ds.Updated (assembledConnection env typeMeta ds ns)),
          some e),
        [.CalculateClusterWideUID (newDataSourceConnection typeMeta ds ns),
          .MetaAccessor (assembledConnection env typeMeta ds ns),
          .SetUpdatedTimestamp m ds.Updated]⟩ := by
  simp [asConnection, h]

/-- The accessor lookup failed with a nil accessor: the method call on it panics before any
method runs. -/
theorem asConnection_of_lookup_nil (env : Env) (typeMeta : TypeMeta) (ds : DataSource)
    (ns : String) (e : GoError)
    (h : env.MetaAccessor (assembledConnection env typeMeta ds ns) = (none, some e)) :
    asConnection env typeMeta (some ds) ns =
      ⟨.panic,
        [.CalculateClusterWideUID (newDataSourceConnection typeMeta ds ns),
          .MetaAccessor (assembledConnection env typeMeta ds ns)]⟩ := by
  simp [asConnection, h]

/-- For a non-nil record `asConnection` ends in one of two ways: it returns a non-nil
object, the assembled one with or without the updated-timestamp annotation; or it panics,
which happens only when the accessor lookup failed with a nil accessor. -/
theorem asConnection_cases (env : Env) (typeMeta : TypeMeta) (ds : DataSource) (ns : String) :
    (∃ v err, (asConnection env typeMeta (some ds) ns).out = Outcome.ret (some v, err) ∧
      (v = assembledConnection env typeMeta ds ns ∨
        v = { assembledConnection env typeMeta ds ns with
              UpdatedTimestamp := some ds.Updated })) ∨
    ((asConnection env typeMeta (some ds) ns).out = Outcome.panic ∧
      ∃ e, env.MetaAccessor (assembledConnection env typeMeta ds ns) = (none, some e)) := by
  rcases hm : env.MetaAccessor (assembledConnection env typeMeta ds ns) with ⟨m, e⟩
  cases e with
  | none =>
    rw [asConnection_of_lookup_ok env typeMeta ds ns m hm]
    exact Or.inl ⟨_, none, rfl, Or.inl rfl⟩
  | some e =>
    cases m with
    | none =>
      rw [asConnection_of_lookup_nil env typeMeta ds ns e hm]
      exact Or.inr ⟨rfl, e, rfl⟩
    | some m =>
      rw [asConnection_of_lookup_err env typeMeta ds ns m e hm]
      exact Or.inl ⟨_, some e, rfl, Or.inr rfl⟩

/-! ## The claims -/

/-- C1: when the namespace resolver fails with error `e`, each of Query, Resource, Health,
Datasource and Datasources returns exactly `e` (with a nil result where it has one), and the
only call it made is the resolver call itself: no call to the plugin client, to the
acting-user resolver, to the by-UID lookup or to the by-type lookup. -/
theorem namespace_failure_returns_before_any_collaborator (env : Env) (q : DefaultQuerier)
    (ctx : Context) (info : NamespaceInfo) (e : GoError)
    (h : env.NamespaceInfoFrom ctx true = (info, some e)) :
    (∀ query, q.Query env ctx query = ⟨.ret (none, some e), [.NamespaceInfoFrom ctx true]⟩ ∧
        (q.Query env ctx query).calls.filter Call.isDownstream = []) ∧
    (∀ req sender,
        q.Resource env ctx req sender = ⟨.ret (some e), [.NamespaceInfoFrom ctx true]⟩ ∧
        (q.Resource env ctx req sender).calls.filter Call.isDownstream = []) ∧
    (∀ query, q.Health env ctx query = ⟨.ret (none, some e), [.NamespaceInfoFrom ctx true]⟩ ∧
        (q.Health env ctx query).calls.filter Call.isDownstream = []) ∧
    (∀ name, q.Datasource env ctx name = ⟨.ret (none, some e), [.NamespaceInfoFrom ctx true]⟩ ∧
        (q.Datasource env ctx name).calls.filter Call.isDownstream = []) ∧
    (q.Datasources env ctx = ⟨.ret (none, some e), [.NamespaceInfoFrom ctx true]⟩ ∧
        (q.Datasources env ctx).calls.filter Call.isDownstream = []) := by
  refine ⟨fun query => ?_, fun req sender => ?_, fun query => ?_, fun name => ?_, ?_⟩ <;>
    simp [DefaultQuerier.Query, DefaultQuerier.Resource, DefaultQuerier.Health,
      DefaultQuerier.Datasource, DefaultQuerier.Datasources, h, Call.isDownstream]

/-- C1 at a concrete input: with the failing resolver of `noNamespaceEnv`, all five
operations of `exampleQuerier` return the resolver error after the resolver call alone. -/
theorem namespace_failure_witness :
    noNamespaceEnv.NamespaceInfoFrom exampleContext true =
      (⟨0, ""⟩, some ⟨"missing namespace"⟩) ∧
    exampleQuerier.Query noNamespaceEnv exampleContext (some ⟨"select 1"⟩) =
      ⟨.ret (none, some ⟨"missing namespace"⟩), [.NamespaceInfoFrom exampleContext true]⟩ ∧
    exampleQuerier.Resource noNamespaceEnv exampleContext (some ⟨"GET /labels"⟩) ⟨3⟩ =
      ⟨.ret (some ⟨"missing namespace"⟩), [.NamespaceInfoFrom exampleContext true]⟩ ∧
    exampleQuerier.Health noNamespaceEnv exampleContext none =
      ⟨.ret (none, some ⟨"missing namespace"⟩), [.NamespaceInfoFrom exampleContext true]⟩ ∧
    exampleQuerier.Datasource noNamespaceEnv exampleContext "abc" =
      ⟨.ret (none, some ⟨"missing namespace"⟩), [.NamespaceInfoFrom exampleContext true]⟩ ∧
    exampleQuerier.Datasources noNamespaceEnv exampleContext =
      ⟨.ret (none, some ⟨"missing namespace"⟩), [.NamespaceInfoFrom exampleContext true]⟩ :=
  have h := namespace_failure_returns_before_any_collaborator noNamespaceEnv exampleQuerier
    exampleContext ⟨0, ""⟩ ⟨"missing namespace"⟩ rfl
  ⟨rfl, (h.1 (some ⟨"select 1"⟩)).1, (h.2.1 (some ⟨"GET /labels"⟩) ⟨3⟩).1, (h.2.2.1 none).1,
    (h.2.2.2.1 "abc").1, h.2.2.2.2.1⟩

/-- C2: for every type descriptor, non-nil record `ds` and namespace `ns`, `asConnection`
returns a non-nil object with Name = ds.UID, Namespace = ns, Title = ds.Name,
CreationTimestamp = ds.Created (wrapped by metav1.NewTime) and TypeMeta = the given type
descriptor; the one run in which nothing is returned is the panic after an accessor lookup
that failed with a nil accessor. -/
theorem asConnection_identity_fields (env : Env) (typeMeta : TypeMeta) (ds : DataSource)
    (ns : String) :
    (∃ v err, (asConnection env typeMeta (some ds) ns).out = Outcome.ret (some v, err) ∧
      v.Name = ds.UID ∧ v.Namespace = ns ∧ v.Title = ds.Name ∧
      v.CreationTimestamp = NewTime ds.Created ∧ v.CreationTimestamp.Time = ds.Created ∧
      v.toTypeMeta = typeMeta) ∨
    ((asConnection env typeMeta (some ds) ns).out = Outcome.panic ∧
      ∃ e, env.MetaAccessor (assembledConnection env typeMeta ds ns) = (none, some e)) := by
  rcases asConnection_cases env typeMeta ds ns with ⟨v, err, hout, rfl | rfl⟩ | hp
  · exact Or.inl ⟨_, err, hout, rfl, rfl, rfl, rfl, rfl, rfl⟩
  · exact Or.inl ⟨_, err, hout, rfl, rfl, rfl, rfl, rfl, rfl⟩
  · exact Or.inr hp

/-- C2 at the record of the end-to-end scenario: UID "abc", name "My DB", created at
`exampleCreated`, org 7, namespace "org-7". -/
theorem asConnection_identity_fields_witness :
    ∃ v err, (asConnection exampleEnv exampleTypeMeta (some exampleRecord) "org-7").out =
        Outcome.ret (some v, err) ∧
      v.Name = "abc" ∧ v.Namespace = "org-7" ∧ v.Title = "My DB" ∧
      v.CreationTimestamp = NewTime exampleCreated ∧ v.CreationTimestamp.Time = exampleCreated ∧
      v.toTypeMeta = exampleTypeMeta :=
  (asConnection_identity_fields exampleEnv exampleTypeMeta exampleRecord "org-7").resolve_right
    (fun h => absurd h.1 (by decide))

/-- Within the int64 range of milliseconds, `UnixMilli` is the whole number of milliseconds
since the epoch. -/
theorem unixMilli_eq_epochMillis (t : Time) (hlo : -9223372036854775808 ≤ t.epochMillis)
    (hhi : t.epochMillis < 9223372036854775808) : t.UnixMilli = t.epochMillis := by
  unfold Time.UnixMilli Time.epochMillis wrapInt64 at *
  omega

/-- The rendering of `sprintfD` is the decimal rendering of the integer. -/
theorem sprintfD_eq_toString (i : Int) : sprintfD i = toString i := by
  cases i with
  | ofNat n => simp [sprintfD]; rfl
  | negSucc n => simp [sprintfD, Int.negSucc_lt_zero]; rfl

/-- C3, as the code has it: for every record whose Updated time, in whole milliseconds
since the Unix epoch, fits a signed 64-bit integer, the ResourceVersion of the object
`asConnection` returns is the base-10 decimal string of that number of milliseconds (with a
leading minus sign before the epoch); the one run in which nothing is returned is the panic
after an accessor lookup that failed with a nil accessor. -/
theorem asConnection_resourceVersion (env : Env) (typeMeta : TypeMeta) (ds : DataSource)
    (ns : String) (hlo : -9223372036854775808 ≤ ds.Updated.epochMillis)
    (hhi : ds.Updated.epochMillis < 9223372036854775808) :
    (∃ v err, (asConnection env typeMeta (some ds) ns).out = Outcome.ret (some v, err) ∧
      v.ResourceVersion = sprintfD ds.Updated.epochMillis ∧
      v.ResourceVersion = toString ds.Updated.epochMillis) ∨
    ((asConnection env typeMeta (some ds) ns).out = Outcome.panic ∧
      ∃ e, env.MetaAccessor (assembledConnection env typeMeta ds ns) = (none, some e)) := by
  have hrv : (assembledConnection env typeMeta ds ns).ResourceVersion =
      sprintfD ds.Updated.epochMillis := by
    show sprintfD ds.Updated.UnixMilli = _
    rw [unixMilli_eq_epochMillis ds.Updated hlo hhi]
  rcases asConnection_cases env typeMeta ds ns with ⟨v, err, hout, rfl | rfl⟩ | hp
  · exact Or.inl ⟨_, err, hout, hrv, hrv.trans (sprintfD_eq_toString _)⟩
  · exact Or.inl ⟨_, err, hout, hrv, hrv.trans (sprintfD_eq_toString _)⟩
  · exact Or.inr hp

/-- C3 at concrete inputs: an Updated time of 1700000000123 ms (and 456789 ns) gives
"1700000000123"; one of half a millisecond before the epoch gives "-1". -/
theorem asConnection_resourceVersion_witness :
    (exampleRecord.Updated.epochMillis = 1700000000123 ∧
      ∃ v err, (asConnection exampleEnv exampleTypeMeta (some exampleRecord) "org-7").out =
          Outcome.ret (some v, err) ∧
        v.ResourceVersion = "1700000000123") ∧
    (beforeEpochRecord.Updated.epochMillis = -1 ∧
      ∃ v err, (asConnection exampleEnv exampleTypeMeta (some beforeEpochRecord) "org-7").out =
          Outcome.ret (some v, err) ∧
        v.ResourceVersion = "-1") := by
  refine ⟨⟨by decide, ?_⟩, by decide, ?_⟩
  · rcases asConnection_resourceVersion exampleEnv exampleTypeMeta exampleRecord "org-7"
      (by decide) (by decide) with ⟨v, err, hout, h, _⟩ | hp
    · exact ⟨v, err, hout, h.trans (by decide)⟩
    · exact absurd hp.1 (by decide)
  · rcases asConnection_resourceVersion exampleEnv exampleTypeMeta beforeEpochRecord "org-7"
      (by decide) (by decide) with ⟨v, err, hout, h, _⟩ | hp
    · exact ⟨v, err, hout, h.trans (by decide)⟩
    · exact absurd hp.1 (by decide)

/-- C3 as stated fails: `farFutureRecord` holds a well-formed time whose millisecond count,
9223372036854776000, exceeds the int64 range; `asConnection` returns normally and the
ResourceVersion is "-9223372036854775616", not the decimal string of that count. -/
theorem asConnection_resourceVersion_counterexample :
    farFutureRecord.Updated.WellFormed ∧
    (asConnection exampleEnv exampleTypeMeta (some farFutureRecord) "org-7").out =
      Outcome.ret
        (some (assembledConnection exampleEnv exampleTypeMeta farFutureRecord "org-7"), none) ∧
    (assembledConnection exampleEnv exampleTypeMeta farFutureRecord "org-7").ResourceVersion =
      "-9223372036854775616" ∧
    sprintfD farFutureRecord.Updated.epochMillis = "9223372036854776000" ∧
    (assembledConnection exampleEnv exampleTypeMeta farFutureRecord "org-7").ResourceVersion ≠
      sprintfD farFutureRecord.Updated.epochMillis := by
  refine ⟨by decide, rfl, by decide, by decide, by decide⟩

/-- C4: if `CalculateClusterWideUID` is a function of the type descriptor, the name and the
namespace only, then for every type descriptor, record and namespace the object `v` that
`asConnection` returns satisfies v.UID = CalculateClusterWideUID(v); the one run in which
nothing is returned is the panic after an accessor lookup that failed with a nil accessor. -/
theorem asConnection_uid_recomputes (env : Env) (typeMeta : TypeMeta) (ds : DataSource)
    (ns : String)
    (hcalc : ∀ a b : DataSourceConnection, a.toTypeMeta = b.toTypeMeta → a.Name = b.Name →
      a.Namespace = b.Namespace → env.CalculateClusterWideUID a = env.CalculateClusterWideUID b) :
    (∃ v err, (asConnection env typeMeta (some ds) ns).out = Outcome.ret (some v, err) ∧
      v.UID = env.CalculateClusterWideUID v) ∨
    ((asConnection env typeMeta (some ds) ns).out = Outcome.panic ∧
      ∃ e, env.MetaAccessor (assembledConnection env typeMeta ds ns) = (none, some e)) := by
  rcases asConnection_cases env typeMeta ds ns with ⟨v, err, hout, rfl | rfl⟩ | hp
  · exact Or.inl ⟨_, err, hout, hcalc _ _ rfl rfl rfl⟩
  · exact Or.inl ⟨_, err, hout, hcalc _ _ rfl rfl rfl⟩
  · exact Or.inr hp

/-- C4 at concrete inputs: with the toy UID of `exampleEnv`, which reads kind, namespace
and name only, the objects returned for `exampleRecord` (no annotation) and for `badRecord`
(annotation set) store the UID recomputed from themselves. -/
theorem asConnection_uid_recomputes_witness :
    (∃ v err, (asConnection exampleEnv exampleTypeMeta (some exampleRecord) "org-7").out =
        Outcome.ret (some v, err) ∧ v.UID = exampleUID v) ∧
    (∃ v err, (asConnection lenientAccessorEnv exampleTypeMeta (some badRecord) "org-7").out =
        Outcome.ret (some v, err) ∧ v.UID = exampleUID v) ∧
    (assembledConnection exampleEnv exampleTypeMeta exampleRecord "org-7").UID =
      "DataSourceConnection|org-7|abc" := by
  have hex : ∀ a b : DataSourceConnection, a.toTypeMeta = b.toTypeMeta → a.Name = b.Name →
      a.Namespace = b.Namespace → exampleUID a = exampleUID b := by
    intro a b h1 h2 h3
    unfold exampleUID
    rw [show a.Kind = b.Kind from congrArg TypeMeta.Kind h1, h2, h3]
  refine ⟨?_, ?_, by decide⟩
  · exact (asConnection_uid_recomputes exampleEnv exampleTypeMeta exampleRecord "org-7"
      hex).resolve_right (fun h => absurd h.1 (by decide))
  · exact (asConnection_uid_recomputes lenientAccessorEnv exampleTypeMeta badRecord "org-7"
      hex).resolve_right (fun h => absurd h.1 (by decide))

/-- The loop of `asConnectionList` appends, in order, the object of every call of
`asConnection` that returns, whatever error came with it. -/
theorem asConnectionListLoop_out (env : Env) (typeMeta : TypeMeta) (ns : String)
    (dss : List DataSource) (vs : List DataSourceConnection)
    (h : List.Forall₂
      (fun d v => ∃ e, (asConnection env typeMeta (some d) ns).out = Outcome.ret (some v, e))
      dss vs) :
    ∀ (items : List DataSourceConnection) (calls : List Call),
      (asConnectionListLoop env typeMeta ns (dss.map some) items calls).out =
        Outcome.ret (some ⟨some (items ++ vs)⟩, none) := by
  induction h with
  | nil => intro items calls; simp [asConnectionListLoop]
  | @cons d v dss vs hd _ ih =>
    intro items calls
    obtain ⟨e, he⟩ := hd
    rcases hrun : asConnection env typeMeta (some d) ns with ⟨o, cs⟩
    rw [hrun] at he
    simp only at he
    subst he
    simp only [List.map_cons, asConnectionListLoop, hrun]
    rw [ih]
    simp

/-- The list projection on the runs that reach its end: for a list of N non-nil records on
each of which `asConnection` returns an object (with or without an error),
`asConnectionList` returns a nil error and a non-nil list whose Items are exactly those N
objects, in input order. -/
theorem asConnectionList_maps_in_order (env : Env) (typeMeta : TypeMeta) (ns : String)
    (dss : List DataSource) (vs : List DataSourceConnection)
    (h : List.Forall₂
      (fun d v => ∃ e, (asConnection env typeMeta (some d) ns).out = Outcome.ret (some v, e))
      dss vs) :
    (asConnectionList env typeMeta (some (dss.map some)) ns).out =
        Outcome.ret (some ⟨some vs⟩, none) ∧
      vs.length = dss.length := by
  refine ⟨?_, h.length_eq.symm⟩
  have := asConnectionListLoop_out env typeMeta ns dss vs h [] []
  simpa [asConnectionList] using this

/-- The list projection at a concrete input: of three records the second comes back from
`asConnection` with an error; the list still has the three objects, in order, and the error
is nil. -/
theorem asConnectionList_maps_in_order_witness :
    (asConnection lenientAccessorEnv exampleTypeMeta (some badRecord) "org-7").out =
      Outcome.ret
        (some { assembledConnection lenientAccessorEnv exampleTypeMeta badRecord "org-7" with
                UpdatedTimestamp := some exampleUpdated },
          some ⟨"accessor failed"⟩) ∧
    (asConnectionList lenientAccessorEnv exampleTypeMeta
        (some [some exampleRecord, some badRecord, some beforeEpochRecord]) "org-7").out =
      Outcome.ret
        (some ⟨some
          [assembledConnection lenientAccessorEnv exampleTypeMeta exampleRecord "org-7",
            { assembledConnection lenientAccessorEnv exampleTypeMeta badRecord "org-7" with
              UpdatedTimestamp := some exampleUpdated },
            assembledConnection lenientAccessorEnv exampleTypeMeta beforeEpochRecord "org-7"]⟩,
          none) :=
  ⟨rfl,
    (asConnectionList_maps_in_order lenientAccessorEnv exampleTypeMeta "org-7"
      [exampleRecord, badRecord, beforeEpochRecord] _
      (List.Forall₂.cons ⟨none, rfl⟩
        (List.Forall₂.cons ⟨some ⟨"accessor failed"⟩, rfl⟩
          (List.Forall₂.cons ⟨none, rfl⟩ List.Forall₂.nil)))).1⟩

/-- C5 fails on the code: of three non-nil records the accessor lookup fails for the second
one, with a nil accessor and an error as a failing Go function returns them. The call of
`asConnection` on that record panics instead of returning the object with the error, and
`asConnectionList` panics with it after four calls: no list of three items and no nil error
is returned. The first and the third record alone would each be projected. -/
theorem asConnectionList_item_failure_panics :
    nilForBadEnv.MetaAccessor
        (assembledConnection nilForBadEnv exampleTypeMeta badRecord "org-7") =
      (none, some ⟨"accessor failed"⟩) ∧
    (asConnection nilForBadEnv exampleTypeMeta (some exampleRecord) "org-7").out =
      Outcome.ret
        (some (assembledConnection nilForBadEnv exampleTypeMeta exampleRecord "org-7"), none) ∧
    (asConnection nilForBadEnv exampleTypeMeta (some beforeEpochRecord) "org-7").out =
      Outcome.ret
        (some (assembledConnection nilForBadEnv exampleTypeMeta beforeEpochRecord "org-7"),
          none) ∧
    (asConnection nilForBadEnv exampleTypeMeta (some badRecord) "org-7").out = Outcome.panic ∧
    asConnectionList nilForBadEnv exampleTypeMeta
        (some [some exampleRecord, some badRecord, some beforeEpochRecord]) "org-7" =
      ⟨.panic,
        [.CalculateClusterWideUID (newDataSourceConnection exampleTypeMeta exampleRecord "org-7"),
          .MetaAccessor (assembledConnection nilForBadEnv exampleTypeMeta exampleRecord "org-7"),
          .CalculateClusterWideUID (newDataSourceConnection exampleTypeMeta badRecord "org-7"),
          .MetaAccessor (assembledConnection nilForBadEnv exampleTypeMeta badRecord "org-7")]⟩ :=
  ⟨rfl, rfl, rfl, rfl, rfl⟩

/-- C6: on a nil and on an empty record slice `asConnectionList` returns a non-nil list
whose Items is the empty, non-nil slice, with a nil error and no call made; so when the
namespace resolves to `info` and the by-type lookup, called with OrgID = info.OrgID and
Type = the plugin ID of the querier, returns no record and no error, Datasources returns a
list with empty Items and a nil error. -/
theorem empty_input_gives_empty_items (env : Env) (q : DefaultQuerier) (ctx : Context)
    (info : NamespaceInfo) (dss : Option (List (Option DataSource)))
    (hns : env.NamespaceInfoFrom ctx true = (info, none))
    (hlookup : q.dsService.GetDataSourcesByType ctx ⟨info.OrgID, q.pluginJSON.ID⟩ = (dss, none))
    (hempty : dss = none ∨ dss = some []) :
    (∀ typeMeta ns,
      asConnectionList env typeMeta none ns = ⟨.ret (some ⟨some []⟩, none), []⟩ ∧
      asConnectionList env typeMeta (some []) ns = ⟨.ret (some ⟨some []⟩, none), []⟩) ∧
    q.Datasources env ctx =
      ⟨.ret (some ⟨some []⟩, none),
        [.NamespaceInfoFrom ctx true,
          .GetDataSourcesByType ctx ⟨info.OrgID, q.pluginJSON.ID⟩]⟩ := by
  refine ⟨fun typeMeta ns => ⟨rfl, rfl⟩, ?_⟩
  rcases hempty with rfl | rfl <;>
    simp [DefaultQuerier.Datasources, hns, hlookup, asConnectionList, asConnectionListLoop]

/-- C6 at the end-to-end scenario: plugin type "prometheus", org 7, no matching record. -/
theorem empty_input_gives_empty_items_witness :
    exampleQuerier.Datasources exampleEnv exampleContext =
      ⟨.ret (some ⟨some []⟩, none),
        [.NamespaceInfoFrom exampleContext true,
          .GetDataSourcesByType exampleContext ⟨7, "prometheus"⟩]⟩ :=
  (empty_input_gives_empty_items exampleEnv exampleQuerier exampleContext ⟨7, "org-7"⟩
    (some []) rfl rfl (Or.inr rfl)).2


/-- C7 fails on the code: when the accessor lookup fails with error `e` and, as a failing Go
function does, hands back a nil accessor, `asConnection` reaches `meta.SetUpdatedTimestamp`
with that nil accessor and panics; neither the assembled object nor `e` is returned. -/
theorem asConnection_nil_accessor_panics :
    nilAccessorEnv.MetaAccessor
        (assembledConnection nilAccessorEnv exampleTypeMeta exampleRecord "org-7") =
      (none, some ⟨"object does not implement the Object interfaces"⟩) ∧
    asConnection nilAccessorEnv exampleTypeMeta (some exampleRecord) "org-7" =
      ⟨.panic,
        [.CalculateClusterWideUID (newDataSourceConnection exampleTypeMeta exampleRecord "org-7"),
          .MetaAccessor
            (assembledConnection nilAccessorEnv exampleTypeMeta exampleRecord "org-7")]⟩ ∧
    asConnectionList nilAccessorEnv exampleTypeMeta (some [some exampleRecord]) "org-7" =
      ⟨.panic,
        [.CalculateClusterWideUID (newDataSourceConnection exampleTypeMeta exampleRecord "org-7"),
          .MetaAccessor
            (assembledConnection nilAccessorEnv exampleTypeMeta exampleRecord "org-7")]⟩ :=
  ⟨rfl, rfl, rfl⟩

/-- No call `asConnection` makes is a by-UID lookup. -/
theorem asConnection_calls_no_byUID (env : Env) (typeMeta : TypeMeta) (ds : Option DataSource)
    (ns : String) : (asConnection env typeMeta ds ns).calls.filter Call.isByUID = [] := by
  cases ds with
  | none => rfl
  | some d =>
    rcases hm : env.MetaAccessor (assembledConnection env typeMeta d ns) with ⟨m, e⟩
    cases e with
    | none => rw [asConnection_of_lookup_ok env typeMeta d ns m hm]; rfl
    | some e =>
      cases m with
      | none => rw [asConnection_of_lookup_nil env typeMeta d ns e hm]; rfl
      | some m => rw [asConnection_of_lookup_err env typeMeta d ns m e hm]; rfl

/-- C8, as the code has it: whenever the namespace and the acting user both resolve,
Datasource(ctx, name) performs exactly one by-UID lookup, with uid = name, the resolved user
and skipCache = false (the lookup may be served from the cache); a lookup error is returned
verbatim with a nil connection, and on success the result is that of `asConnection` on the
bound type descriptor, the fetched record and the resolved namespace value. -/
theorem datasource_lookup_by_uid (env : Env) (q : DefaultQuerier) (ctx : Context)
    (name : String) (info : NamespaceInfo) (user : Option SignedInUser)
    (hns : env.NamespaceInfoFrom ctx true = (info, none))
    (huser : env.User ctx = (user, none)) :
    (q.Datasource env ctx name).calls.filter Call.isByUID =
        [.GetDatasourceByUID ctx name user false] ∧
    (∀ ds e, q.dsCache.GetDatasourceByUID ctx name user false = (ds, some e) →
      q.Datasource env ctx name =
        ⟨.ret (none, some e),
          [.NamespaceInfoFrom ctx true, .User ctx, .GetDatasourceByUID ctx name user false]⟩) ∧
    (∀ ds, q.dsCache.GetDatasourceByUID ctx name user false = (ds, none) →
      (q.Datasource env ctx name).out =
          (asConnection env q.connectionResourceInfo.TypeMeta ds info.Value).out ∧
      (q.Datasource env ctx name).calls =
        [.NamespaceInfoFrom ctx true, .User ctx, .GetDatasourceByUID ctx name user false] ++
          (asConnection env q.connectionResourceInfo.TypeMeta ds info.Value).calls) := by
  refine ⟨?_, fun ds e hl => ?_, fun ds hl => ?_⟩
  · rcases hl : q.dsCache.GetDatasourceByUID ctx name user false with ⟨ds, e⟩
    cases e with
    | some e => simp [DefaultQuerier.Datasource, hns, huser, hl, Call.isByUID]
    | none =>
      have hc := asConnection_calls_no_byUID env q.connectionResourceInfo.TypeMeta ds info.Value
      simp [DefaultQuerier.Datasource, hns, huser, hl, Call.isByUID, List.filter_append]
      simpa using hc
  · simp [DefaultQuerier.Datasource, hns, huser, hl]
  · simp [DefaultQuerier.Datasource, hns, huser, hl]

/-- C8 at a concrete input: "abc" is found and projected; "nope" is not found and the
lookup error comes back with a nil connection. -/
theorem datasource_lookup_by_uid_witness :
    (exampleQuerier.Datasource exampleEnv exampleContext "abc").out =
      Outcome.ret (some (assembledConnection exampleEnv exampleTypeMeta exampleRecord "org-7"),
        none) ∧
    (exampleQuerier.Datasource exampleEnv exampleContext "abc").calls.filter Call.isByUID =
      [.GetDatasourceByUID exampleContext "abc" (some ⟨"admin"⟩) false] ∧
    (exampleQuerier.Datasource exampleEnv exampleContext "nope").out =
      Outcome.ret (none, some ⟨"data source not found"⟩) :=
  have habc := datasource_lookup_by_uid exampleEnv exampleQuerier exampleContext "abc"
    ⟨7, "org-7"⟩ (some ⟨"admin"⟩) rfl rfl
  have hnope := datasource_lookup_by_uid exampleEnv exampleQuerier exampleContext "nope"
    ⟨7, "org-7"⟩ (some ⟨"admin"⟩) rfl rfl
  ⟨(habc.2.2 (some exampleRecord) rfl).1.trans rfl, habc.1,
    congrArg Run.out (hnope.2.1 none ⟨"data source not found"⟩ rfl)⟩

/-- C8 as stated fails: in a run of Datasource where namespace and user resolve, the
one by-UID lookup is made with skipCache = false, and no lookup with skipCache = true is
made. -/
theorem datasource_skipCache_counterexample :
    exampleEnv.NamespaceInfoFrom exampleContext true = (⟨7, "org-7"⟩, none) ∧
    exampleEnv.User exampleContext = (some ⟨"admin"⟩, none) ∧
    (exampleQuerier.Datasource exampleEnv exampleContext "abc").calls.filter Call.isByUID =
      [.GetDatasourceByUID exampleContext "abc" (some ⟨"admin"⟩) false] ∧
    Call.GetDatasourceByUID exampleContext "abc" (some ⟨"admin"⟩) true ∉
      (exampleQuerier.Datasource exampleEnv exampleContext "abc").calls := by
  refine ⟨rfl, rfl, rfl, by decide⟩


/-- C9: whenever the namespace resolver succeeds, Query, Health and Resource each call the
matching plugin-client operation (QueryData, CheckHealth, CallResource) exactly once, with
the same context and the unmodified request (and sender), and return exactly what the
plugin client returned. -/
theorem delegation_is_verbatim (env : Env) (q : DefaultQuerier) (ctx : Context)
    (info : NamespaceInfo) (hns : env.NamespaceInfoFrom ctx true = (info, none)) :
    (∀ query,
      q.Query env ctx query =
        ⟨.ret (q.pluginClient.QueryData ctx query),
          [.NamespaceInfoFrom ctx true, .QueryData ctx query]⟩ ∧
      (q.Query env ctx query).calls.filter Call.isPluginClient = [.QueryData ctx query]) ∧
    (∀ query,
      q.Health env ctx query =
        ⟨.ret (q.pluginClient.CheckHealth ctx query),
          [.NamespaceInfoFrom ctx true, .CheckHealth ctx query]⟩ ∧
      (q.Health env ctx query).calls.filter Call.isPluginClient = [.CheckHealth ctx query]) ∧
    (∀ req sender,
      q.Resource env ctx req sender =
        ⟨.ret (q.pluginClient.CallResource ctx req sender),
          [.NamespaceInfoFrom ctx true, .CallResource ctx req sender]⟩ ∧
      (q.Resource env ctx req sender).calls.filter Call.isPluginClient =
        [.CallResource ctx req sender]) := by
  refine ⟨fun query => ?_, fun query => ?_, fun req sender => ?_⟩ <;>
    simp [DefaultQuerier.Query, DefaultQuerier.Health, DefaultQuerier.Resource, hns,
      Call.isPluginClient]

/-- C9 at a concrete input: the response of QueryData, the error of CheckHealth and the
nil error of CallResource come back unchanged. -/
theorem delegation_is_verbatim_witness :
    (exampleQuerier.Query exampleEnv exampleContext (some ⟨"select 1"⟩)).out =
      Outcome.ret (some ⟨"frames"⟩, none) ∧
    (exampleQuerier.Health exampleEnv exampleContext none).out =
      Outcome.ret (none, some ⟨"plugin unavailable"⟩) ∧
    exampleQuerier.Resource exampleEnv exampleContext (some ⟨"GET /labels"⟩) ⟨3⟩ =
      ⟨.ret none,
        [.NamespaceInfoFrom exampleContext true,
          .CallResource exampleContext (some ⟨"GET /labels"⟩) ⟨3⟩]⟩ :=
  have h := delegation_is_verbatim exampleEnv exampleQuerier exampleContext ⟨7, "org-7"⟩ rfl
  ⟨congrArg Run.out (h.1 (some ⟨"select 1"⟩)).1, congrArg Run.out (h.2.1 none).1,
    (h.2.2 (some ⟨"GET /labels"⟩) ⟨3⟩).1⟩

end Datasource
